import Mathlib

/-!
Verification development for the round-robin circuit-multiplexing protocol
core (`src/protocols/roundrobin.c`).

The C code is shallowly embedded: machine integers become `Nat` with the
wrap modulus applied explicitly where C arithmetic overflows
(`uint32_t` additions/subtractions are taken `% 4294967296`,
`uint16_t` additions `% 65536`); `evbuffer`s become `List Nat` of byte
values; the doubly-linked circular reassembly list with its sentinel
becomes a plain `List` of its real elements in list order; fallible
operations return `Option`.  Allocation failures of evbuffers are not
modelled (allocation is assumed to succeed) except in `rr_send_block`,
whose atomicity contract quantifies over the failure of each step.
Randomness (`random_range`, `random_bytes`) is modelled by explicit
supply parameters; exhausting a supply is modelled as `none`.
-/

/-- `RR_F_SYN` flag bit from the source. -/
def RR_F_SYN : Nat := 0x0001
/-- `RR_F_FIN` flag bit from the source. -/
def RR_F_FIN : Nat := 0x0002
/-- `RR_F_CHAFF` flag bit from the source. -/
def RR_F_CHAFF : Nat := 0x0004
/-- `RR_WIRE_HDR_LEN = sizeof(struct rr_header)` = 16 bytes. -/
def RR_WIRE_HDR_LEN : Nat := 16
/-- `RR_MIN_BLOCK = RR_WIRE_HDR_LEN*2` = 32. -/
def RR_MIN_BLOCK : Nat := 32
/-- `RR_MAX_BLOCK = INT16_MAX` = 32767. -/
def RR_MAX_BLOCK : Nat := 32767
/-- Wrap modulus of `uint32_t` arithmetic. -/
def U32_MOD : Nat := 4294967296
/-- Wrap modulus of `uint16_t` arithmetic. -/
def U16_MOD : Nat := 65536

/-- `struct rr_header`: 64-bit circuit id, 32-bit offset, 16-bit length,
16-bit flags. -/
structure rr_header where
  ckt_id : Nat
  offset : Nat
  length : Nat
  flags : Nat
deriving DecidableEq, Repr

/-- `rr_write_header`: serialize a header into its 16 wire bytes,
big-endian, exactly as the source masks and shifts. -/
def rr_write_header (hdr : rr_header) : List Nat :=
  [ (hdr.ckt_id &&& 0xFF00000000000000) >>> 56,
    (hdr.ckt_id &&& 0x00FF000000000000) >>> 48,
    (hdr.ckt_id &&& 0x0000FF0000000000) >>> 40,
    (hdr.ckt_id &&& 0x000000FF00000000) >>> 32,
    (hdr.ckt_id &&& 0x00000000FF000000) >>> 24,
    (hdr.ckt_id &&& 0x0000000000FF0000) >>> 16,
    (hdr.ckt_id &&& 0x000000000000FF00) >>> 8,
    (hdr.ckt_id &&& 0x00000000000000FF) >>> 0,
    (hdr.offset &&& 0xFF000000) >>> 24,
    (hdr.offset &&& 0x00FF0000) >>> 16,
    (hdr.offset &&& 0x0000FF00) >>> 8,
    (hdr.offset &&& 0x000000FF) >>> 0,
    (hdr.length &&& 0xFF00) >>> 8,
    (hdr.length &&& 0x00FF) >>> 0,
    (hdr.flags  &&& 0xFF00) >>> 8,
    (hdr.flags  &&& 0x00FF) >>> 0 ]

/-- `rr_peek_header`: parse the first 16 buffered bytes into a header
without consuming them.  The source returns -1 when fewer than 16 bytes
are buffered (`evbuffer_get_length(buf) < RR_WIRE_HDR_LEN`, in which
case `evbuffer_copyout` could also come up short); matching sixteen
leading list cells is the same condition.  No other condition is
checked. -/
def rr_peek_header (buf : List Nat) : Option rr_header :=
  match buf with
  | b0 :: b1 :: b2 :: b3 :: b4 :: b5 :: b6 :: b7 ::
    b8 :: b9 :: b10 :: b11 :: b12 :: b13 :: b14 :: b15 :: _ =>
    some { ckt_id := (b0 <<< 56) + (b1 <<< 48) + (b2 <<< 40) + (b3 <<< 32) +
                     (b4 <<< 24) + (b5 <<< 16) + (b6 <<< 8) + (b7 <<< 0),
           offset := (b8 <<< 24) + (b9 <<< 16) + (b10 <<< 8) + (b11 <<< 0),
           length := (b12 <<< 8) + (b13 <<< 0),
           flags  := (b14 <<< 8) + (b15 <<< 0) }
  | _ => none

/-- `mod32_lt`: true if `s < t` (mod 2^32).  `uint32_t d = t - s` is the
wrapped difference for `s, t < 2^32`. -/
def mod32_lt (s t : Nat) : Bool :=
  let d := (t + U32_MOD - s) % U32_MOD
  0 < d && d < 0x80000000

/-- `mod32_le`: true if `s <= t` (mod 2^32). -/
def mod32_le (s t : Nat) : Bool :=
  let d := (t + U32_MOD - s) % U32_MOD
  d < 0x80000000

/-- `rr_reassembly_elt`: one element of the per-circuit reassembly
queue.  The source keeps these in a circular doubly-linked list with a
sentinel (`data == 0`); here the queue is the list of its real elements
in list order, so `queue->next` is the head and `queue->prev` the last
element.  `data` holds the payload bytes. -/
structure rr_reassembly_elt where
  offset : Nat
  length : Nat
  flags : Nat
  data : List Nat
deriving DecidableEq, Repr

/-- The `grow_back` merge loop of `rr_reassemble_block`: while the next
element exists and `p->offset + p->length == p->next->offset` (uint32
arithmetic), absorb it (`p->length += q->length` is `uint16_t`
arithmetic; flags are OR-ed; payloads concatenated). -/
def rr_grow_back_merge (p : rr_reassembly_elt) :
    List rr_reassembly_elt → rr_reassembly_elt × List rr_reassembly_elt
  | [] => (p, [])
  | q :: rest =>
    if (p.offset + p.length) % U32_MOD = q.offset then
      rr_grow_back_merge
        ⟨p.offset, (p.length + q.length) % U16_MOD, p.flags ||| q.flags,
         p.data ++ q.data⟩ rest
    else (p, q :: rest)

/-- The `grow_front` merge loop of `rr_reassemble_block`: while the
previous element exists and `p->offset == p->prev->offset +
p->prev->length` (uint32 arithmetic), absorb it (`p->offset -=
q->length` wraps mod 2^32, `p->length += q->length` mod 2^16; the
absorbed payload is prepended).  The first list argument holds the
elements before `p`, nearest first (reversed prefix). -/
def rr_grow_front_merge :
    List rr_reassembly_elt → rr_reassembly_elt →
    List rr_reassembly_elt × rr_reassembly_elt
  | [], p => ([], p)
  | q :: rest, p =>
    if p.offset = (q.offset + q.length) % U32_MOD then
      rr_grow_front_merge rest
        ⟨(p.offset + U32_MOD - q.length) % U32_MOD,
         (p.length + q.length) % U16_MOD, p.flags ||| q.flags,
         q.data ++ p.data⟩
    else (q :: rest, p)

/-- The placement walk of `rr_reassemble_block` (`for (p = queue->next;
p != queue; p = p->next)` plus the post-loop sentinel check and the
linking of a fresh element).  `left` holds the already-passed elements,
nearest first, so the full queue is `left.reverse ++ right`; `none` is
the `return -1` protocol error. -/
def rr_reassemble_walk (hdr : rr_header) (block : List Nat) :
    List rr_reassembly_elt → List rr_reassembly_elt →
    Option (List rr_reassembly_elt)
  | left, [] =>
    -- p is the sentinel: this block goes after the last element, which
    -- has not been checked yet ("Special case" comment in the source).
    match left with
    | [] => some [⟨hdr.offset, hdr.length, hdr.flags, block⟩]
    | pv :: _ =>
      if mod32_lt ((pv.offset + pv.length) % U32_MOD) hdr.offset then
        some (left.reverse ++ [⟨hdr.offset, hdr.length, hdr.flags, block⟩])
      else none
  | left, p :: rest =>
    if (hdr.offset + hdr.length) % U32_MOD = p.offset then
      -- grow_front: prepend-merge into p, then cascade into predecessors
      let p1 : rr_reassembly_elt :=
        ⟨(p.offset + U32_MOD - hdr.length) % U32_MOD,
         (p.length + hdr.length) % U16_MOD, p.flags ||| hdr.flags,
         block ++ p.data⟩
      let fm := rr_grow_front_merge left p1
      some (fm.1.reverse ++ fm.2 :: rest)
    else if hdr.offset = (p.offset + p.length) % U32_MOD then
      -- grow_back: append-merge into p, then cascade into successors
      let p1 : rr_reassembly_elt :=
        ⟨p.offset, (p.length + hdr.length) % U16_MOD, p.flags ||| hdr.flags,
         p.data ++ block⟩
      let bm := rr_grow_back_merge p1 rest
      some (left.reverse ++ bm.1 :: bm.2)
    else if mod32_lt ((hdr.offset + hdr.length) % U32_MOD) p.offset then
      -- the block goes before p: it must fit after p->prev
      match left with
      | [] =>
        some (⟨hdr.offset, hdr.length, hdr.flags, block⟩ :: p :: rest)
      | pv :: _ =>
        if mod32_lt ((pv.offset + pv.length) % U32_MOD) hdr.offset then
          some (left.reverse ++
            ⟨hdr.offset, hdr.length, hdr.flags, block⟩ :: p :: rest)
        else none
    else rr_reassemble_walk hdr block (p :: left) rest

/-- `rr_reassemble_block`: add a received block to the reassembly queue
at the appropriate location and merge adjacent blocks to the extent
possible; `none` is the protocol-error return -1, which is fatal to the
circuit.  Chaff without SYN/FIN is discarded (success, queue
unchanged); chaff carrying SYN or FIN is queued with length 0.  The
`evbuffer` operations' allocation failures are not modelled. -/
def rr_reassemble_block (queue : List rr_reassembly_elt) (hdr0 : rr_header)
    (block0 : List Nat) : Option (List rr_reassembly_elt) :=
  if hdr0.flags &&& RR_F_CHAFF ≠ 0 ∧
     hdr0.flags &&& (RR_F_SYN ||| RR_F_FIN) = 0 then
    some queue
  else
    let hdr : rr_header :=
      if hdr0.flags &&& RR_F_CHAFF ≠ 0 then
        ⟨hdr0.ckt_id, hdr0.offset, 0, hdr0.flags⟩
      else hdr0
    let block : List Nat :=
      if hdr0.flags &&& RR_F_CHAFF ≠ 0 then [] else block0
    -- SYN must occur at offset zero, may not be duplicated, and
    -- everything already queued must come logically after this block.
    let synBad : Bool :=
      (hdr.flags &&& RR_F_SYN != 0) &&
      (decide (0 < hdr.offset) ||
       (match queue with
        | [] => false
        | first :: _ =>
          (first.flags &&& RR_F_SYN != 0) ||
          !mod32_le ((hdr.offset + hdr.length) % U32_MOD) first.offset))
    -- FIN may not be duplicated and must occur logically after
    -- everything already received.
    let finBad : Bool :=
      (hdr.flags &&& RR_F_FIN != 0) &&
      (match queue.getLast? with
       | none => false
       | some last =>
         (last.flags &&& RR_F_FIN != 0) ||
         !mod32_le ((last.offset + last.length) % U32_MOD) hdr.offset)
    -- Non-SYN/FIN must come after any queued SYN block and before any
    -- queued FIN block.
    let plainBad : Bool :=
      (hdr.flags &&& (RR_F_SYN ||| RR_F_FIN) == 0) &&
      (match queue, queue.getLast? with
       | first :: _, some last =>
         ((first.flags &&& RR_F_SYN != 0) &&
          !mod32_le ((first.offset + first.length) % U32_MOD) hdr.offset) ||
         ((last.flags &&& RR_F_FIN != 0) &&
          !mod32_le ((hdr.offset + hdr.length) % U32_MOD) last.offset)
       | _, _ => false)
    if synBad then none
    else if finBad then none
    else if plainBad then none
    else rr_reassemble_walk hdr block [] queue

/-- `struct roundrobin_circuit_t`: the per-circuit state.  `xzalloc`
zero-fills it on creation, so every numeric field starts 0, every flag
false, and the buffers/lists empty.  Downstream connections are
identified by `Nat` ids. -/
structure roundrobin_circuit_t where
  reassembly_queue : List rr_reassembly_elt
  xmit_pending : List Nat
  downstreams : List Nat
  circuit_id : Nat
  send_offset : Nat
  recv_offset : Nat
  next_block_size : Nat
  next_down : Nat
  received_syn : Bool
  received_fin : Bool
  sent_syn : Bool
  sent_fin : Bool
deriving DecidableEq, Repr

/-- `roundrobin_circuit_create`: `xzalloc` zero-fills the struct; the
constructor initializes only the (empty) reassembly queue sentinel, a
fresh `xmit_pending` evbuffer and a fresh `downstreams` smartlist.
Note that neither `circuit_id` nor `next_block_size` is assigned: both
stay 0. -/
def roundrobin_circuit_create : roundrobin_circuit_t :=
  { reassembly_queue := []
    xmit_pending := []
    downstreams := []
    circuit_id := 0
    send_offset := 0
    recv_offset := 0
    next_block_size := 0
    next_down := 0
    received_syn := false
    received_fin := false
    sent_syn := false
    sent_fin := false }

/-- `roundrobin_circuit_add_downstream`: `smartlist_add` appends the
connection; the axe timer (disarmed here in the source) is not
modelled. -/
def roundrobin_circuit_add_downstream (ckt : roundrobin_circuit_t)
    (conn : Nat) : roundrobin_circuit_t :=
  { ckt with downstreams := ckt.downstreams ++ [conn] }

/-- What `roundrobin_circuit_drop_downstream` does besides removing the
connection: nothing, close the circuit, or arm the axe timer (ms). -/
inductive drop_outcome where
  | cont : drop_outcome
  | close : drop_outcome
  | armAxe : Nat → drop_outcome
deriving DecidableEq, Repr

/-- `roundrobin_circuit_drop_downstream`: `smartlist_remove` deletes the
connection from the list; if the list became empty the circuit is
closed (when both FINs are done) or the 100 ms axe timer is armed.  No
other field is touched. -/
def roundrobin_circuit_drop_downstream (ckt : roundrobin_circuit_t)
    (conn : Nat) : roundrobin_circuit_t × drop_outcome :=
  let ds := ckt.downstreams.filter (fun d => d != conn)
  let ckt1 := { ckt with downstreams := ds }
  if ds.length = 0 then
    if ckt.sent_fin ∧ ckt.received_fin then (ckt1, .close)
    else (ckt1, .armAxe 100)
  else (ckt1, .cont)

/-- One block handed to a downstream connection's outbound buffer by the
dispatcher: the target connection, the header, and the payload bytes
that follow it on the wire. -/
structure rr_emit where
  conn : Nat
  hdr : rr_header
  payload : List Nat
deriving DecidableEq, Repr

/-- State advance shared by every loop iteration of `rr_send_blocks`
after a block of `size` bytes has been sent: drain the payload, advance
the round-robin index (wrapping after increment), advance `send_offset`
(uint32), install the freshly drawn `next_block_size` `r`, and set
`sent_syn`. -/
def rr_send_advance (ckt : roundrobin_circuit_t) (size r : Nat) :
    roundrobin_circuit_t :=
  let nd := ckt.next_down + 1
  { ckt with
    xmit_pending := ckt.xmit_pending.drop size
    next_down := if nd = ckt.downstreams.length then 0 else nd
    send_offset := (ckt.send_offset + size) % U32_MOD
    next_block_size := r
    sent_syn := true }

/-- The block built by one loop iteration of `rr_send_blocks` for
`target`, before the state advances. -/
def rr_mk_emit (ckt : roundrobin_circuit_t) (target size flags : Nat) :
    rr_emit :=
  ⟨target, ⟨ckt.circuit_id, ckt.send_offset, size, flags⟩,
   ckt.xmit_pending.take size⟩

/-- The `for (;;)` loop of `rr_send_blocks`.  `rand` supplies the
successive `random_range(RR_MIN_BLOCK, RR_MAX_BLOCK)` draws; running
out of supply is modelled as failure, as is `smartlist_get` indexing
outside the downstream list (out-of-bounds access in the source).
`rr_send_block`'s buffer operations cannot fail here apart from
allocation (not modelled): the loop guards guarantee the copy-out is
within `xmit_pending`. -/
def rr_send_loop (at_eof : Bool) (ckt : roundrobin_circuit_t)
    (rand : List Nat) (acc : List rr_emit) :
    Option (roundrobin_circuit_t × List rr_emit) :=
  let avail := ckt.xmit_pending.length
  let flags0 := if ckt.sent_syn then 0 else RR_F_SYN
  if at_eof = true ∧ 0 < avail ∧ avail ≤ ckt.next_block_size then
    -- final short block: shrink next_block_size to avail and add FIN
    match ckt.downstreams.get? ckt.next_down, rand with
    | some target, r :: rest =>
      rr_send_loop at_eof (rr_send_advance ckt avail r) rest
        (rr_mk_emit ckt target avail (flags0 ||| RR_F_FIN) :: acc)
    | _, _ => none
  else if avail < ckt.next_block_size then some (ckt, acc.reverse)
  else
    match ckt.downstreams.get? ckt.next_down, rand with
    | some target, r :: rest =>
      rr_send_loop at_eof (rr_send_advance ckt ckt.next_block_size r) rest
        (rr_mk_emit ckt target ckt.next_block_size flags0 :: acc)
    | _, _ => none

/-- `roundrobin_circuit_send`: move the upstream input into
`xmit_pending`, then run `rr_send_blocks(c, 0)`. -/
def roundrobin_circuit_send (ckt : roundrobin_circuit_t)
    (input : List Nat) (rand : List Nat) :
    Option (roundrobin_circuit_t × List rr_emit) :=
  rr_send_loop false { ckt with xmit_pending := ckt.xmit_pending ++ input }
    rand []

/-- `roundrobin_circuit_send_eof`: with no downstreams just set
`sent_fin`; with pending data run `rr_send_blocks(c, 1)`; with an empty
stream send one chaff block whose flags are hard-coded
`RR_F_FIN|RR_F_CHAFF` to carry the FIN.  `chaff` supplies the
`random_bytes` payload (it must cover `next_block_size` bytes) and
`rand` the subsequent size draw.  After emission `sent_fin` is set;
`conn_send_eof` on each downstream is not modelled. -/
def roundrobin_circuit_send_eof (ckt0 : roundrobin_circuit_t)
    (input : List Nat) (chaff : List Nat) (rand : List Nat) :
    Option (roundrobin_circuit_t × List rr_emit) :=
  if ckt0.downstreams.length = 0 then
    some ({ ckt0 with sent_fin := true }, [])
  else
    let ckt := { ckt0 with xmit_pending := ckt0.xmit_pending ++ input }
    if 0 < ckt.xmit_pending.length then
      match rr_send_loop true ckt rand [] with
      | none => none
      | some (ckt1, emits) => some ({ ckt1 with sent_fin := true }, emits)
    else
      if chaff.length < ckt.next_block_size then none
      else
        match ckt.downstreams.get? ckt.next_down, rand with
        | some d, r :: _ =>
          let e : rr_emit :=
            ⟨d, ⟨ckt.circuit_id, ckt.send_offset, ckt.next_block_size,
                 RR_F_FIN ||| RR_F_CHAFF⟩,
             chaff.take ckt.next_block_size⟩
          let nd := ckt.next_down + 1
          some ({ ckt with
                  next_down := if nd = ckt.downstreams.length then 0 else nd
                  send_offset :=
                    (ckt.send_offset + ckt.next_block_size) % U32_MOD
                  next_block_size := r
                  sent_fin := true }, [e])
        | _, _ => none

/-- `rr_push_to_upstream`: flush what is deliverable toward upstream.
Only the first queue element can be ready; it is delivered exactly when
it exists, its offset equals `recv_offset`, and either `received_syn`
already holds or the element carries SYN.  Delivery appends the payload
to the upstream output `up`, advances `recv_offset` (uint32), records
SYN/FIN consumption and reports whether `circuit_recv_eof` was
signalled.  (In the source `received_syn` is set inside the
`!received_syn` branch; after any delivery it is true either way, which
is how it is written here.) -/
def rr_push_to_upstream (ckt : roundrobin_circuit_t) (up : List Nat) :
    roundrobin_circuit_t × List Nat × Bool :=
  match ckt.reassembly_queue with
  | [] => (ckt, up, false)
  | ready :: rest =>
    if ckt.recv_offset ≠ ready.offset then (ckt, up, false)
    else if ckt.received_syn = false ∧ ready.flags &&& RR_F_SYN = 0 then
      (ckt, up, false)
    else
      ({ ckt with
         reassembly_queue := rest
         recv_offset := (ckt.recv_offset + ready.length) % U32_MOD
         received_syn := true
         received_fin := ckt.received_fin || (ready.flags &&& RR_F_FIN != 0) },
       up ++ ready.data,
       ready.flags &&& RR_F_FIN != 0)

/-- `rr_find_or_make_circuit`: look the circuit id up in the config's
hash table (modelled as an association list keyed by the table entry's
`circuit_id`).  On a miss, create a circuit, open its upstream
(assumed to succeed), set the **table entry's** `circuit_id` to the
looked-up id and insert it; note that the created circuit's own
`circuit_id` field is never assigned and keeps its `xzalloc` value 0.
Either way the connection is attached to the circuit; the updated
table and the attached circuit are returned. -/
def rr_find_or_make_circuit (table : List (Nat × roundrobin_circuit_t))
    (conn : Nat) (circuit_id : Nat) :
    List (Nat × roundrobin_circuit_t) × roundrobin_circuit_t :=
  match table.find? (fun e => e.1 == circuit_id) with
  | some e =>
    let ckt1 := roundrobin_circuit_add_downstream e.2 conn
    (table.map (fun e2 => if e2.1 == circuit_id then (circuit_id, ckt1)
                          else e2), ckt1)
  | none =>
    let ckt1 := roundrobin_circuit_add_downstream
      roundrobin_circuit_create conn
    ((circuit_id, ckt1) :: table, ckt1)

/-- The `for (;;)` framing loop of `roundrobin_conn_recv`: while at
least `RR_MIN_BLOCK` bytes are buffered and the full block (header plus
`hdr.length` payload plus the `RR_MIN_BLOCK` framing slack) has
arrived, check the circuit id against the circuit's `circuit_id` field,
split off the block and reassemble it.  `none` is the protocol-error
return -1. -/
def rr_conn_recv_loop_fuel :
    Nat → roundrobin_circuit_t → List Nat →
    Option (roundrobin_circuit_t × List Nat)
  | 0, _, _ => none
  | fuel + 1, ckt, input =>
    if input.length < RR_MIN_BLOCK then some (ckt, input)
    else
      match rr_peek_header input with
      | none => none
      | some hdr =>
        if input.length < RR_MIN_BLOCK + hdr.length then some (ckt, input)
        else if ckt.circuit_id ≠ hdr.ckt_id then none
        else
          let block := (input.drop RR_WIRE_HDR_LEN).take hdr.length
          let rest := input.drop (RR_WIRE_HDR_LEN + hdr.length)
          match rr_reassemble_block ckt.reassembly_queue hdr block with
          | none => none
          | some queue1 =>
            rr_conn_recv_loop_fuel fuel
              { ckt with reassembly_queue := queue1 } rest

/-- The framing loop with enough fuel to be exhaustion-free: every
iteration that recurses consumes at least `RR_WIRE_HDR_LEN` = 16 bytes
of `input`, so `input.length + 1` steps always reach a `some`/`none`
of the source loop itself. -/
def rr_conn_recv_loop (ckt : roundrobin_circuit_t) (input : List Nat) :
    Option (roundrobin_circuit_t × List Nat) :=
  rr_conn_recv_loop_fuel (input.length + 1) ckt input

/-- `roundrobin_conn_recv`: the connection's receive callback.  `cktOpt`
is the circuit the connection is attached to (`none` models
`conn->circuit == NULL`).  An unattached connection waits for
`RR_MIN_BLOCK` bytes, peeks the header and runs
`rr_find_or_make_circuit` on its circuit id.  Then the framing loop
consumes whole blocks and finally `rr_push_to_upstream` flushes.  The
result carries the updated table, the connection's circuit, the
unconsumed input, the upstream output and the EOF signal; `none` is the
error return -1. -/
def roundrobin_conn_recv (table : List (Nat × roundrobin_circuit_t))
    (cktOpt : Option roundrobin_circuit_t) (conn : Nat)
    (input : List Nat) (up : List Nat) :
    Option (List (Nat × roundrobin_circuit_t) × Option roundrobin_circuit_t ×
            List Nat × List Nat × Bool) :=
  match cktOpt with
  | none =>
    if input.length < RR_MIN_BLOCK then
      some (table, none, input, up, false)
    else
      match rr_peek_header input with
      | none => none
      | some hdr =>
        let fm := rr_find_or_make_circuit table conn hdr.ckt_id
        match rr_conn_recv_loop fm.2 input with
        | none => none
        | some (ckt1, rest) =>
          let pu := rr_push_to_upstream ckt1 up
          some (fm.1, some pu.1, rest, pu.2.1, pu.2.2)
  | some ckt =>
    match rr_conn_recv_loop ckt input with
    | none => none
    | some (ckt1, rest) =>
      let pu := rr_push_to_upstream ckt1 up
      some (table, some pu.1, rest, pu.2.1, pu.2.2)

/-- `rr_send_block`: build one wire block (header plus `length` bytes
copied out of `source`) in a scratch evbuffer and append it to `dest`;
only then is `source` drained.  Each fallible step's outcome is
explicit: `reserve_ok` is `evbuffer_reserve_space` returning 1,
`sized_ok` is the reserved iovec covering `length + RR_WIRE_HDR_LEN`
bytes, the copy-out fails iff `source` holds fewer than `length` bytes,
and `commit_ok`/`add_ok` are `evbuffer_commit_space` and
`evbuffer_add_buffer` succeeding.  On every failure path the scratch
block is drained and `dest` and `source` are untouched (the source
comment: "We take special care not to modify 'source' if any step
fails"); the final `evbuffer_drain(source, length)` cannot fail after a
successful copy-out.  Returns (status ok?, dest', source'). -/
def rr_send_block (reserve_ok sized_ok commit_ok add_ok : Bool)
    (dest source : List Nat) (circuit_id offset length flags : Nat) :
    Bool × List Nat × List Nat :=
  if reserve_ok = false then (false, dest, source)
  else if sized_ok = false then (false, dest, source)
  else if source.length < length then (false, dest, source)
  else if commit_ok = false then (false, dest, source)
  else if add_ok = false then (false, dest, source)
  else (true,
        dest ++ rr_write_header ⟨circuit_id, offset, length, flags⟩ ++
          source.take length,
        source.drop length)

/-- Byte extraction: masking with a shifted 0xFF and shifting down is the
corresponding base-256 digit. -/
theorem rr_byte_extract (x s : Nat) :
    (x &&& (255 <<< s)) >>> s = x / 2 ^ s % 256 := by
  have h255 : (255 : Nat) = 2 ^ 8 - 1 := by norm_num
  have h256 : (256 : Nat) = 2 ^ 8 := by norm_num
  apply Nat.eq_of_testBit_eq
  intro i
  rw [h255, h256, ← Nat.shiftRight_eq_div_pow]
  simp only [Nat.testBit_shiftRight, Nat.testBit_and, Nat.testBit_shiftLeft,
    Nat.testBit_two_pow_sub_one, Nat.testBit_mod_two_pow]
  by_cases h : i < 8
  · simp [h, Nat.add_sub_cancel_left, Nat.le_add_right, Nat.add_comm s i]
  · simp [h, Nat.add_sub_cancel_left, Nat.le_add_right, Nat.add_comm s i]

/-- Byte 7 of a big-endian 64-bit serialization. -/
theorem rr_byte56 (x : Nat) :
    (x &&& 0xFF00000000000000) >>> 56 = x / 72057594037927936 % 256 := by
  have m : (0xFF00000000000000 : Nat) = 255 <<< 56 := by
    norm_num [Nat.shiftLeft_eq]
  rw [m, rr_byte_extract]; norm_num

/-- Byte 6 of a big-endian 64-bit serialization. -/
theorem rr_byte48 (x : Nat) :
    (x &&& 0x00FF000000000000) >>> 48 = x / 281474976710656 % 256 := by
  have m : (0x00FF000000000000 : Nat) = 255 <<< 48 := by
    norm_num [Nat.shiftLeft_eq]
  rw [m, rr_byte_extract]; norm_num

/-- Byte 5 of a big-endian 64-bit serialization. -/
theorem rr_byte40 (x : Nat) :
    (x &&& 0x0000FF0000000000) >>> 40 = x / 1099511627776 % 256 := by
  have m : (0x0000FF0000000000 : Nat) = 255 <<< 40 := by
    norm_num [Nat.shiftLeft_eq]
  rw [m, rr_byte_extract]; norm_num

/-- Byte 4 of a big-endian 64-bit serialization. -/
theorem rr_byte32 (x : Nat) :
    (x &&& 0x000000FF00000000) >>> 32 = x / 4294967296 % 256 := by
  have m : (0x000000FF00000000 : Nat) = 255 <<< 32 := by
    norm_num [Nat.shiftLeft_eq]
  rw [m, rr_byte_extract]; norm_num

/-- Byte 3 of a big-endian 64-bit (or 32-bit) serialization. -/
theorem rr_byte24 (x : Nat) :
    (x &&& 0xFF000000) >>> 24 = x / 16777216 % 256 := by
  have m : (0xFF000000 : Nat) = 255 <<< 24 := by
    norm_num [Nat.shiftLeft_eq]
  rw [m, rr_byte_extract]; norm_num

/-- Byte 2 of a big-endian serialization. -/
theorem rr_byte16 (x : Nat) :
    (x &&& 0x00FF0000) >>> 16 = x / 65536 % 256 := by
  have m : (0x00FF0000 : Nat) = 255 <<< 16 := by
    norm_num [Nat.shiftLeft_eq]
  rw [m, rr_byte_extract]; norm_num

/-- Byte 1 of a big-endian serialization. -/
theorem rr_byte8 (x : Nat) :
    (x &&& 0xFF00) >>> 8 = x / 256 % 256 := by
  have m : (0xFF00 : Nat) = 255 <<< 8 := by
    norm_num [Nat.shiftLeft_eq]
  rw [m, rr_byte_extract]; norm_num

/-- Byte 0 of a big-endian serialization. -/
theorem rr_byte0 (x : Nat) : (x &&& 0xFF) >>> 0 = x % 256 := by
  have m : (0xFF : Nat) = 255 <<< 0 := by
    norm_num [Nat.shiftLeft_eq]
  rw [m, rr_byte_extract]; norm_num

set_option maxRecDepth 8000 in
/-- C8 (confirmed).  Header codec round trip: for every header `h` with
valid field widths (64-bit circuit id, 32-bit offset, 16-bit length,
16-bit flags), writing `h` with `rr_write_header` and parsing the
resulting 16-byte buffer with `rr_peek_header` succeeds and yields
exactly `h`; the wire layout is big-endian fixed-width. -/
theorem c8_header_roundtrip (h : rr_header)
    (h1 : h.ckt_id < 2 ^ 64) (h2 : h.offset < 2 ^ 32)
    (h3 : h.length < 2 ^ 16) (h4 : h.flags < 2 ^ 16) :
    rr_peek_header (rr_write_header h) = some h := by
  obtain ⟨a, b, c, d⟩ := h
  simp only [rr_write_header, rr_peek_header, rr_byte56, rr_byte48,
    rr_byte40, rr_byte32, rr_byte24, rr_byte16, rr_byte8, rr_byte0,
    Nat.shiftLeft_eq, Option.some.injEq, rr_header.mk.injEq]
  norm_num at h1 h2 h3 h4 ⊢
  refine ⟨?_, ?_, ?_, ?_⟩ <;> omega

/-- Witness for C8 at a concrete header. -/
theorem c8_header_roundtrip_witness :
    rr_peek_header (rr_write_header ⟨1234605616436508552, 3735928559, 32767, 7⟩) =
      some ⟨1234605616436508552, 3735928559, 32767, 7⟩ :=
  c8_header_roundtrip ⟨1234605616436508552, 3735928559, 32767, 7⟩
    (by norm_num) (by norm_num) (by norm_num) (by norm_num)

/-- C9 (confirmed).  Sequence comparison semantics: for 32-bit `s`, `t`,
`mod32_lt s t` holds iff `(t - s) mod 2^32` lies strictly between 0 and
2^31, and `mod32_le s t` holds iff `(t - s) mod 2^32` is strictly less
than 2^31 (the subtraction taken over the integers, the modulus
non-negative). -/
theorem c9_mod32_semantics (s t : Nat)
    (hs : s < 4294967296) (ht : t < 4294967296) :
    (mod32_lt s t = true ↔
      0 < ((t : Int) - (s : Int)) % 4294967296 ∧
      ((t : Int) - (s : Int)) % 4294967296 < 2147483648) ∧
    (mod32_le s t = true ↔
      ((t : Int) - (s : Int)) % 4294967296 < 2147483648) := by
  simp only [mod32_lt, mod32_le, U32_MOD, Bool.and_eq_true, decide_eq_true_eq]
  omega

/-- Witness for C9: `5 < 10` and, across the wrap, `2^32 - 1 <= 0`
(difference 1). -/
theorem c9_mod32_semantics_witness :
    mod32_lt 5 10 = true ∧ mod32_le 4294967295 0 = true :=
  ⟨((c9_mod32_semantics 5 10 (by norm_num) (by norm_num)).1).mpr (by decide),
   ((c9_mod32_semantics 4294967295 0 (by norm_num) (by norm_num)).2).mpr
     (by decide)⟩

/-- C1 (code_bug).  The spec says that after `rr_find_or_make_circuit`
creates the circuit for an unknown id K and attaches the connection,
subsequent blocks carrying K pass the receive path's circuit-id
mismatch check.  In the code the created circuit's own `circuit_id`
field is never assigned (only the hash-table entry's is), so it keeps
its `xzalloc` value 0 and `ckt->circuit_id != hdr.ckt_id` fires for
every K other than 0: here a valid 48-byte input whose single block
carries circuit id 1 is rejected (`none`, the protocol-error -1) in the
very call that created the circuit, even though the table entry is
keyed 1 while the circuit's field is 0. -/
theorem c1_demux_circuit_id_never_assigned :
    roundrobin_conn_recv [] none 7
      (rr_write_header ⟨1, 0, 16, 1⟩ ++ List.replicate 32 0) [] = none ∧
    (rr_find_or_make_circuit [] 7 1).2.circuit_id = 0 ∧
    (rr_find_or_make_circuit [] 7 1).1.map (fun e => e.1) = [1] := by
  refine ⟨by decide, by decide, by decide⟩

/-- C2 counterexample.  The claim says any received block with a
reserved flag bit set yields a protocol error.  Here a block with
flags 9 (SYN plus reserved bit 3) on a matching attached circuit is
processed without error: the receive path returns success and even
delivers the 40 payload bytes upstream. -/
theorem c2_reserved_flag_block_accepted :
    roundrobin_conn_recv []
      (some ⟨[], [], [3], 5, 0, 0, 0, 0, false, false, false, false⟩) 3
      (rr_write_header ⟨5, 0, 40, 9⟩ ++ List.replicate 40 7 ++
        List.replicate 16 0) [] =
      some ([], some ⟨[], [], [3], 5, 0, 40, 0, 0, true, false, false, false⟩,
            List.replicate 16 0, List.replicate 40 7, false) ∧
    9 &&& (RR_F_SYN ||| RR_F_FIN ||| RR_F_CHAFF) ≠ 9 := by
  refine ⟨by decide, by decide⟩

/-- `rr_peek_header` succeeds exactly when at least 16 bytes are
buffered; no field of the parsed header is inspected. -/
theorem rr_peek_header_isSome_iff (buf : List Nat) :
    (rr_peek_header buf).isSome = true ↔ 16 ≤ buf.length := by
  match buf with
  | b0 :: b1 :: b2 :: b3 :: b4 :: b5 :: b6 :: b7 ::
    b8 :: b9 :: b10 :: b11 :: b12 :: b13 :: b14 :: b15 :: t =>
    simp [rr_peek_header]
  | [] => simp [rr_peek_header]
  | [b0] => simp [rr_peek_header]
  | [b0, b1] => simp [rr_peek_header]
  | [b0, b1, b2] => simp [rr_peek_header]
  | [b0, b1, b2, b3] => simp [rr_peek_header]
  | [b0, b1, b2, b3, b4] => simp [rr_peek_header]
  | [b0, b1, b2, b3, b4, b5] => simp [rr_peek_header]
  | [b0, b1, b2, b3, b4, b5, b6] => simp [rr_peek_header]
  | [b0, b1, b2, b3, b4, b5, b6, b7] => simp [rr_peek_header]
  | [b0, b1, b2, b3, b4, b5, b6, b7, b8] => simp [rr_peek_header]
  | [b0, b1, b2, b3, b4, b5, b6, b7, b8, b9] => simp [rr_peek_header]
  | [b0, b1, b2, b3, b4, b5, b6, b7, b8, b9, b10] =>
    simp [rr_peek_header]
  | [b0, b1, b2, b3, b4, b5, b6, b7, b8, b9, b10, b11] =>
    simp [rr_peek_header]
  | [b0, b1, b2, b3, b4, b5, b6, b7, b8, b9, b10, b11, b12] =>
    simp [rr_peek_header]
  | [b0, b1, b2, b3, b4, b5, b6, b7, b8, b9, b10, b11, b12, b13] =>
    simp [rr_peek_header]
  | [b0, b1, b2, b3, b4, b5, b6, b7, b8, b9, b10, b11, b12, b13, b14] =>
    simp [rr_peek_header]

/-- C3 (code_bug).  Empty-stream EOF: with `xmit_pending` empty,
`sent_syn` false and one downstream attached,
`roundrobin_circuit_send_eof` emits exactly one chaff block — but its
flags are the hard-coded `RR_F_FIN|RR_F_CHAFF` = 6, not the
`SYN|FIN|CHAFF` = 7 the claim requires when no SYN has been sent (the
data path does add SYN via `flags0`; the chaff path forgets it, and the
receiver's SYN gate in `rr_push_to_upstream` can then never deliver the
EOF). -/
theorem c3_empty_eof_chaff_lacks_syn :
    roundrobin_circuit_send_eof
      ⟨[], [], [7], 0, 0, 0, 100, 0, false, false, false, false⟩
      [] (List.replicate 100 9) [5000] =
      some (⟨[], [], [7], 0, 100, 0, 5000, 0, false, false, false, true⟩,
            [⟨7, ⟨0, 0, 100, 6⟩, List.replicate 100 9⟩]) ∧
    (6 : Nat) &&& RR_F_SYN = 0 ∧
    RR_F_SYN ||| RR_F_FIN ||| RR_F_CHAFF = 7 := by
  refine ⟨by decide, by decide, by decide⟩

/-- C4 (code_bug).  `roundrobin_circuit_create` never initializes
`next_block_size` (it keeps the `xzalloc` value 0), so the first block
a fresh circuit emits through `roundrobin_circuit_send` has length 0,
outside the claimed range [RR_MIN_BLOCK, RR_MAX_BLOCK] = [32, 32767];
only afterwards is `next_block_size` drawn from that range. -/
theorem c4_first_block_has_length_zero :
    roundrobin_circuit_send
      (roundrobin_circuit_add_downstream roundrobin_circuit_create 7)
      (List.replicate 100 3) [5000] =
      some (⟨[], List.replicate 100 3, [7], 0, 0, 0, 5000, 0,
             false, false, true, false⟩,
            [⟨7, ⟨0, 0, 0, 1⟩, []⟩]) ∧
    ¬ RR_MIN_BLOCK ≤ 0 := by
  refine ⟨by decide, by decide⟩

/-- C5 (code_bug).  `roundrobin_circuit_drop_downstream` never re-mods
`next_down`: dropping connection 7 from a circuit whose `next_down` is
1 leaves `next_down` = 1 while only one downstream remains, so the next
dispatch indexes `smartlist_get(downstreams, 1)` out of range (modelled
as the `none` failure of `List.get?`), and the send fails instead of
emitting on the surviving connection. -/
theorem c5_drop_leaves_next_down_out_of_range :
    (roundrobin_circuit_drop_downstream
      ⟨[], [], [7, 8], 0, 0, 0, 50, 1, false, false, true, false⟩ 7).1.downstreams = [8] ∧
    (roundrobin_circuit_drop_downstream
      ⟨[], [], [7, 8], 0, 0, 0, 50, 1, false, false, true, false⟩ 7).1.next_down = 1 ∧
    (roundrobin_circuit_drop_downstream
      ⟨[], [], [7, 8], 0, 0, 0, 50, 1, false, false, true, false⟩ 7).1.downstreams.get? 1 = none ∧
    roundrobin_circuit_send
      (roundrobin_circuit_drop_downstream
        ⟨[], [], [7, 8], 0, 0, 0, 50, 1, false, false, true, false⟩ 7).1
      (List.replicate 100 1) [777] = none := by
  refine ⟨by decide, by decide, by decide, by decide⟩

/-- C7 (code_bug).  The source's own comment in `rr_push_to_upstream`
says "rr_reassemble_block ensures that there are gaps between all queue
elements", and the claim says any block overlapping an existing element
other than by perfect adjacency is rejected.  But the merge paths skip
the overlap check: into the queue {[0,10), [15,20)} the block
[5,15) — which overlaps [0,10) on [5,10) — is *accepted*: its tail
abuts the element at offset 15, so it front-merges into it, leaving the
queue {[0,10), [5,20)} with overlapping elements. -/
theorem c7_overlapping_block_accepted :
    rr_reassemble_block
      [⟨0, 10, 0, List.replicate 10 0⟩, ⟨15, 5, 0, List.replicate 5 1⟩]
      ⟨0, 5, 10, 0⟩ (List.replicate 10 2) =
      some [⟨0, 10, 0, List.replicate 10 0⟩,
            ⟨5, 15, 0, List.replicate 10 2 ++ List.replicate 5 1⟩] ∧
    0 < (5 : Nat) ∧ (5 : Nat) < 0 + 10 := by
  refine ⟨by decide, by decide, by decide⟩

/-- C10 (confirmed).  `rr_send_block` atomicity: whenever any step
fails (space reservation, short reservation, copy-out, commit, or the
append to `dest`) and the call reports failure, both `source` and
`dest` are unchanged; on success `source` is drained by exactly the
block length and `dest` has gained exactly the header plus payload. -/
theorem c10_send_block_atomic (reserve_ok sized_ok commit_ok add_ok : Bool)
    (dest source : List Nat) (circuit_id offset length flags : Nat) :
    ((rr_send_block reserve_ok sized_ok commit_ok add_ok dest source
        circuit_id offset length flags).1 = false →
      (rr_send_block reserve_ok sized_ok commit_ok add_ok dest source
        circuit_id offset length flags).2.2 = source ∧
      (rr_send_block reserve_ok sized_ok commit_ok add_ok dest source
        circuit_id offset length flags).2.1 = dest) ∧
    ((rr_send_block reserve_ok sized_ok commit_ok add_ok dest source
        circuit_id offset length flags).1 = true →
      (rr_send_block reserve_ok sized_ok commit_ok add_ok dest source
        circuit_id offset length flags).2.2 = source.drop length ∧
      (rr_send_block reserve_ok sized_ok commit_ok add_ok dest source
        circuit_id offset length flags).2.1 =
        dest ++ rr_write_header ⟨circuit_id, offset, length, flags⟩ ++
          source.take length) := by
  cases reserve_ok <;> cases sized_ok <;> cases commit_ok <;> cases add_ok <;>
    by_cases hl : source.length < length <;> simp [rr_send_block, hl]

/-- Witness for C10: a failing call (append refused) leaves the source
untouched; the all-steps-succeed call drains exactly 2 bytes. -/
theorem c10_send_block_atomic_witness :
    (rr_send_block true true true false [0] [1, 2, 3] 9 0 2 0).2.2 =
      [1, 2, 3] ∧
    (rr_send_block true true true true [0] [1, 2, 3] 9 0 2 0).2.2 = [3] := by
  refine ⟨((c10_send_block_atomic true true true false [0] [1, 2, 3]
      9 0 2 0).1 (by decide)).1, ?_⟩
  have h := ((c10_send_block_atomic true true true true [0] [1, 2, 3]
      9 0 2 0).2 (by decide)).1
  simpa using h

/-- C6 (confirmed).  Upstream delivery policy: `rr_push_to_upstream`
touches at most the first reassembly-queue element and delivers it iff
it exists, its offset equals `recv_offset`, and `received_syn` already
holds or the element carries SYN.  Delivery appends the payload to the
upstream output, advances `recv_offset` by the element's length
(uint32), sets `received_syn`, records FIN consumption in
`received_fin` and signals circuit EOF exactly on FIN; when the
conditions fail nothing changes and the call succeeds. -/
theorem c6_push_to_upstream_policy (ckt : roundrobin_circuit_t)
    (up : List Nat) :
    (ckt.reassembly_queue = [] →
      rr_push_to_upstream ckt up = (ckt, up, false)) ∧
    (∀ ready rest, ckt.reassembly_queue = ready :: rest →
      (ckt.recv_offset = ready.offset →
       (ckt.received_syn = true ∨ ready.flags &&& RR_F_SYN ≠ 0) →
       rr_push_to_upstream ckt up =
         ({ ckt with
            reassembly_queue := rest
            recv_offset := (ckt.recv_offset + ready.length) % U32_MOD
            received_syn := true
            received_fin :=
              ckt.received_fin || (ready.flags &&& RR_F_FIN != 0) },
          up ++ ready.data, ready.flags &&& RR_F_FIN != 0)) ∧
      ((ckt.recv_offset ≠ ready.offset ∨
        (ckt.received_syn = false ∧ ready.flags &&& RR_F_SYN = 0)) →
       rr_push_to_upstream ckt up = (ckt, up, false))) := by
  refine ⟨?_, ?_⟩
  · intro h
    simp [rr_push_to_upstream, h]
  · intro ready rest hq
    refine ⟨?_, ?_⟩
    · intro hoff hsyn
      simp only [rr_push_to_upstream, hq]
      rw [if_neg (by simp [hoff])]
      rcases hsyn with h | h
      · rw [if_neg (by simp [h])]
      · rw [if_neg (by simp [h])]
    · intro hbad
      simp only [rr_push_to_upstream, hq]
      rcases hbad with h | ⟨h1, h2⟩
      · rw [if_pos h]
      · by_cases hoff : ckt.recv_offset ≠ ready.offset
        · rw [if_pos hoff]
        · rw [if_neg hoff, if_pos ⟨h1, h2⟩]

/-- Witness for C6: a ready SYN element at offset 0 with 3 payload
bytes is delivered; queue emptied, `recv_offset` advanced to 3,
`received_syn` set, no EOF. -/
theorem c6_push_to_upstream_policy_witness :
    rr_push_to_upstream
      ⟨[⟨0, 3, 1, [10, 11, 12]⟩], [], [], 0, 0, 0, 0, 0,
       false, false, false, false⟩ [] =
      (⟨[], [], [], 0, 0, 3, 0, 0, true, false, false, false⟩,
       [10, 11, 12], false) := by
  have h := ((c6_push_to_upstream_policy
      ⟨[⟨0, 3, 1, [10, 11, 12]⟩], [], [], 0, 0, 0, 0, 0,
       false, false, false, false⟩ []).2 ⟨0, 3, 1, [10, 11, 12]⟩ [] rfl).1
      rfl (Or.inr (by decide))
  simpa using h

/-- Parsing a buffer that begins with a written header yields that
header back, whatever follows: `rr_peek_header` does not consume and
only reads the first 16 bytes. -/
theorem rr_peek_write_append (h : rr_header) (rest : List Nat)
    (h1 : h.ckt_id < 2 ^ 64) (h2 : h.offset < 2 ^ 32)
    (h3 : h.length < 2 ^ 16) (h4 : h.flags < 2 ^ 16) :
    rr_peek_header (rr_write_header h ++ rest) = some h := by
  obtain ⟨a, b, c, d⟩ := h
  simp only [rr_write_header, List.cons_append, List.nil_append,
    rr_peek_header, rr_byte56, rr_byte48,
    rr_byte40, rr_byte32, rr_byte24, rr_byte16, rr_byte8, rr_byte0,
    Nat.shiftLeft_eq, Option.some.injEq, rr_header.mk.injEq]
  norm_num at h1 h2 h3 h4 ⊢
  refine ⟨?_, ?_, ?_, ?_⟩ <;> omega

/-- On an empty reassembly queue, a block at offset 0 is always
accepted, no matter what its flags or length are: every pre-check
compares against queued elements (there are none) except the SYN
offset-zero test. -/
theorem rr_reassemble_empty_some (hdr : rr_header) (block : List Nat)
    (hoff : hdr.offset = 0) :
    ∃ q, rr_reassemble_block [] hdr block = some q := by
  unfold rr_reassemble_block
  split
  · exact ⟨[], rfl⟩
  · simp [rr_reassemble_walk, hoff]
    intro _
    split <;> simp [hoff]

/-- One whole block (any flags, any 16-bit length) followed by 16 bytes
of framing slack passes the receive framing loop of
`roundrobin_conn_recv` without a protocol error when the circuit id
matches and the reassembly queue is empty. -/
theorem rr_loop_one_block (n : Nat) (ckt : roundrobin_circuit_t)
    (hdr : rr_header) (payload slack : List Nat)
    (hckt : ckt.circuit_id = hdr.ckt_id)
    (hq : ckt.reassembly_queue = [])
    (hoff : hdr.offset = 0)
    (h1 : hdr.ckt_id < 2 ^ 64) (h2 : hdr.offset < 2 ^ 32)
    (h3 : hdr.length < 2 ^ 16) (h4 : hdr.flags < 2 ^ 16)
    (hp : payload.length = hdr.length) (hs : slack.length = 16) :
    ∃ q1, rr_conn_recv_loop_fuel (n + 2) ckt
      (rr_write_header hdr ++ (payload ++ slack)) =
      some ({ ckt with reassembly_queue := q1 }, slack) := by
  obtain ⟨q1, hq1⟩ := rr_reassemble_empty_some hdr payload hoff
  refine ⟨q1, ?_⟩
  have hw : (rr_write_header hdr).length = 16 := by simp [rr_write_header]
  have hpk := rr_peek_write_append hdr (payload ++ slack) h1 h2 h3 h4
  have hdrop : List.drop 16 (rr_write_header hdr ++ (payload ++ slack)) =
      payload ++ slack := List.drop_left' hw
  have htake : List.take hdr.length (payload ++ slack) = payload :=
    List.take_left' hp
  have hlen : (rr_write_header hdr ++ (payload ++ slack)).length =
      32 + hdr.length := by
    simp [hw, hp, hs]
    omega
  have hdrop2 : List.drop (16 + hdr.length)
      (rr_write_header hdr ++ (payload ++ slack)) = slack := by
    rw [← List.append_assoc]
    exact List.drop_left' (by simp [hw, hp])
  have hc1 : ¬ 32 + hdr.length < 32 := by omega
  have hc2 : ¬ 32 + hdr.length < 32 + hdr.length := by omega
  have hc3 : ¬ ckt.circuit_id ≠ hdr.ckt_id := by simp [hckt]
  have hc4 : (16 : Nat) < 32 := by norm_num
  rw [show n + 2 = (n + 1) + 1 by rfl]
  simp only [rr_conn_recv_loop_fuel, RR_MIN_BLOCK, RR_WIRE_HDR_LEN, hlen, hpk,
    hq, hdrop, htake, hq1, hdrop2, hs, hc1, hc2, hc3, hc4, if_true, if_false]
  try simp

/-- C2 (corrected).  The receive path performs no flag or length
validation.  First: `rr_peek_header` succeeds exactly when at least
`RR_WIRE_HDR_LEN` = 16 bytes are buffered, whatever the flag bits or
length field contain.  Second: a received block whose header has any
reserved flag bits set, or any length up to 65535 (in particular
32767 and above), is accepted by `roundrobin_conn_recv` — no protocol
error results — whenever the circuit id matches and the block (plus
the 32-byte framing slack) has fully arrived on an empty queue. -/
theorem c2_no_header_validation :
    (∀ buf : List Nat, (rr_peek_header buf).isSome = true ↔ 16 ≤ buf.length) ∧
    (∀ (table : List (Nat × roundrobin_circuit_t))
       (ckt : roundrobin_circuit_t) (conn : Nat) (hdr : rr_header)
       (payload slack up : List Nat),
      ckt.circuit_id = hdr.ckt_id → ckt.reassembly_queue = [] →
      hdr.offset = 0 → hdr.ckt_id < 2 ^ 64 → hdr.offset < 2 ^ 32 →
      hdr.length < 2 ^ 16 → hdr.flags < 2 ^ 16 →
      payload.length = hdr.length → slack.length = 16 →
      (roundrobin_conn_recv table (some ckt) conn
        (rr_write_header hdr ++ (payload ++ slack)) up).isSome = true) := by
  constructor
  · exact fun buf => rr_peek_header_isSome_iff buf
  · intro table ckt conn hdr payload slack up hckt hq hoff h1 h2 h3 h4 hp hs
    have hw : (rr_write_header hdr).length = 16 := by simp [rr_write_header]
    have hlen : (rr_write_header hdr ++ (payload ++ slack)).length =
        32 + hdr.length := by
      simp [hw, hp, hs]
      omega
    obtain ⟨q1, hloop⟩ := rr_loop_one_block (31 + hdr.length) ckt hdr payload
      slack hckt hq hoff h1 h2 h3 h4 hp hs
    simp only [roundrobin_conn_recv, rr_conn_recv_loop, hlen]
    rw [show 32 + hdr.length + 1 = 31 + hdr.length + 2 from by omega]
    rw [hloop]
    simp

/-- Witness for C2: the block with reserved flag bits 9 and length 40
is accepted. -/
theorem c2_no_header_validation_witness :
    (roundrobin_conn_recv []
      (some ⟨[], [], [3], 5, 0, 0, 0, 0, false, false, false, false⟩) 3
      (rr_write_header ⟨5, 0, 40, 9⟩ ++
        (List.replicate 40 7 ++ List.replicate 16 0)) []).isSome = true :=
  c2_no_header_validation.2 []
    ⟨[], [], [3], 5, 0, 0, 0, 0, false, false, false, false⟩ 3
    ⟨5, 0, 40, 9⟩ (List.replicate 40 7) (List.replicate 16 0) []
    rfl rfl rfl (by norm_num) (by norm_num) (by norm_num) (by norm_num)
    (by simp) (by simp)
